import Mathlib

/-!
Shallow embedding of `dockerfiles/user-service/app.py`: a minimal HTTP
microservice over a `users` table, with Prometheus-style metrics.

Modelling conventions:
* database rows are `UserRow` values; the table is a `List UserRow` inside `Db`;
* timestamps are opaque naturals (`Ts`); `isoformat` is their serialization;
* metric updates are recorded as event lists in `Effects` (one entry per
  `inc` / `observe`; the users gauge keeps `set` / `inc` events);
* the connection pool is represented by `Env.poolExists` (the global
  `connection_pool` object is not `None`), `Env.getconnOk` (`getconn` does
  not raise) and the leased-connection count `St.leased`;
* store round-trips succeed iff `Env.storeOk`; the `INSERT` statement of
  `do_POST` can fail separately via `Env.insertOk` (exception → rollback);
* Python string operations (`split`, `isdigit`, `startswith`, `int`) are
  re-implemented structurally so that everything evaluates by `decide`.
-/

/-- Stored timestamps (opaque clock values). -/
abbrev Ts := Nat

/-- Serialization `datetime.isoformat` applied to a stored timestamp. -/
def isoformat (t : Ts) : String := toString t

/-- A row of the `users` table. -/
structure UserRow where
  id : Nat
  name : String
  email : String
  created_at : Option Ts
  deriving DecidableEq

/-- A user object as serialized into a JSON response. -/
structure UserOut where
  id : Nat
  name : String
  email : String
  created_at : Option String
  deriving DecidableEq

/-- Row-to-JSON mapping used by both GET endpoints:
`created_at` is isoformatted, or null when absent. -/
def userOut (u : UserRow) : UserOut :=
  ⟨u.id, u.name, u.email, u.created_at.map isoformat⟩

/-- Response bodies produced by the handlers. -/
inductive Body where
  | error (msg : String)
  | health (status service timestamp database version : String)
  | userList (users : List UserOut) (count : Nat) (timestamp : String)
  | userObj (u : UserOut)
  | created (id : Nat) (name email created_at message timestamp : String)
  deriving DecidableEq

/-- An HTTP response: status code plus JSON body. -/
structure Response where
  status : Nat
  body : Body
  deriving DecidableEq

/-- Events on the `app_users_total` gauge. -/
inductive GaugeEv where
  | set (n : Nat)
  | inc
  deriving DecidableEq

/-- Metric events recorded while handling one request, plus a count of
`INSERT` statements actually issued. -/
structure Effects where
  reqCount : List (String × String × String) := []
  errCount : List String := []
  latency : List String := []
  usersGauge : List GaugeEv := []
  insertAttempts : Nat := 0
  deriving DecidableEq

/-- The database: rows plus the generator state for `id` and `created_at`. -/
structure Db where
  rows : List UserRow
  nextId : Nat
  nextTs : Ts
  deriving DecidableEq

/-- Mutable world state threaded through a request: the store and the
number of currently leased pool connections. -/
structure St where
  db : Db
  leased : Nat
  deriving DecidableEq

/-- Per-request environment: pool construction outcome, whether `getconn`
succeeds, whether store queries succeed, whether the `INSERT` succeeds,
and the current wall-clock reading `datetime.now().isoformat()`. -/
structure Env where
  poolExists : Bool
  getconnOk : Bool
  storeOk : Bool
  insertOk : Bool
  now : String
  deriving DecidableEq

/-- One `REQUEST_COUNT.labels(method, endpoint, status).inc()`. -/
def reqInc (eff : Effects) (m ep s : String) : Effects :=
  {eff with reqCount := eff.reqCount ++ [(m, ep, s)]}

/-- One `ERROR_COUNT.labels(type).inc()`. -/
def errInc (eff : Effects) (t : String) : Effects :=
  {eff with errCount := eff.errCount ++ [t]}

/-- `UserHandler._send_error`: bumps the `http_error` counter and responds
with `{'error': message}` and the given status. -/
def sendError (eff : Effects) (msg : String) (status : Nat) : Response × Effects :=
  (⟨status, .error msg⟩, errInc eff ("http_error"))

/-- `get_db_connection()`: yields whether a connection was obtained, the
updated effects (a `db_connection` error is counted when `getconn` raises),
and the updated leased count. When the pool object is `None` it returns
`None` without counting an error. -/
def getDbConnection (env : Env) (eff : Effects) (leased : Nat) :
    Bool × Effects × Nat :=
  if env.poolExists then
    if env.getconnOk then (true, eff, leased + 1)
    else (false, errInc eff ("db_connection"), leased)
  else (false, eff, leased)

/-- `release_db_connection(conn)`: returns the connection to the pool;
a no-op when the pool is absent or the handle is `None`. -/
def releaseDbConnection (env : Env) (conn : Bool) (leased : Nat) : Nat :=
  if env.poolExists && conn then leased - 1 else leased

/-- Python `str.split(sep)` for a one-character separator, on char lists:
splits at every occurrence and keeps empty pieces. -/
def pySplitChars (sep : Char) : List Char → List (List Char)
  | [] => [[]]
  | c :: cs =>
    match pySplitChars sep cs with
    | [] => if c = sep then [[], [c]] else [[c]]
    | h :: t => if c = sep then [] :: h :: t else (c :: h) :: t

/-- Python `str.split(sep)` for a one-character separator. -/
def pySplit (s : String) (sep : Char) : List String :=
  (pySplitChars sep s.toList).map (fun cs => String.mk cs)

/-- Python `path.split('/')[-1]`. -/
def lastSegment (path : String) : String := (pySplit path '/').getLastD ("")

/-- Python `path.split('?')[0]` — strip the query string. -/
def stripQuery (path : String) : String := (pySplit path '?').headD ("")

/-- Python `str.isdigit()` over ASCII strings: non-empty and all digits. -/
def pyIsDigit (s : String) : Bool :=
  !s.toList.isEmpty && s.toList.all Char.isDigit

/-- Python `int()` on an all-digit string. -/
def pyInt (s : String) : Nat :=
  s.toList.foldl (fun n c => n * 10 + (c.toNat - 48)) 0

/-- Python `str.startswith(pre)`. -/
def pyStartsWith (s pre : String) : Bool :=
  s.toList.take pre.toList.length == pre.toList

/-- The `finally` clause of both handlers: record one latency observation
keyed by the given endpoint string. -/
def addLatency (key : String) (r : Response × Effects × St) :
    Response × Effects × St :=
  (r.1, {r.2.1 with latency := r.2.1.latency ++ [key]}, r.2.2)

/-- Body of the `try` block of `UserHandler.do_GET`. -/
def doGETcore (env : Env) (path : String) (st : St) : Response × Effects × St :=
  if path = "/health" then
    let eff := reqInc {} ("GET") ("/health") ("200")
    let dbStatus := if env.poolExists then ("connected") else ("disconnected")
    (⟨200, .health ("healthy") ("user-service") env.now dbStatus ("1.0.0")⟩, eff, st)
  else if path = "/users" then
    let eff := reqInc {} ("GET") ("/users") ("200")
    let g := getDbConnection env eff st.leased
    if g.1 = false then
      let r := sendError g.2.1 ("Database unavailable") 503
      (r.1, r.2, {st with leased := g.2.2})
    else if env.storeOk then
      let us := (st.db.rows.take 100).map userOut
      let eff := {g.2.1 with usersGauge := g.2.1.usersGauge ++ [.set us.length]}
      (⟨200, .userList us us.length env.now⟩, eff,
        {st with leased := releaseDbConnection env g.1 g.2.2})
    else
      let r := sendError g.2.1 ("Internal server error") 500
      (r.1, r.2, {st with leased := releaseDbConnection env g.1 g.2.2})
  else if pyStartsWith path ("/users/") then
    let userId := lastSegment path
    let eff := reqInc {} ("GET") ("/users/{id}") ("200")
    if pyIsDigit userId = false then
      let r := sendError eff ("Invalid user ID") 400
      (r.1, r.2, st)
    else
      let g := getDbConnection env eff st.leased
      if g.1 = false then
        let r := sendError g.2.1 ("Database unavailable") 503
        (r.1, r.2, {st with leased := g.2.2})
      else if env.storeOk then
        match st.db.rows.find? (fun u => u.id == pyInt userId) with
        | some u =>
          (⟨200, .userObj (userOut u)⟩, g.2.1,
            {st with leased := releaseDbConnection env g.1 g.2.2})
        | none =>
          let r := sendError g.2.1 ("User not found") 404
          (r.1, r.2, {st with leased := releaseDbConnection env g.1 g.2.2})
      else
        let r := sendError g.2.1 ("Internal server error") 500
        (r.1, r.2, {st with leased := releaseDbConnection env g.1 g.2.2})
  else
    let eff := reqInc {} ("GET") ("unknown") ("404")
    let r := sendError eff ("Not found") 404
    (r.1, r.2, st)

/-- `UserHandler.do_GET`: the `try` body followed by the `finally` latency
observation, keyed by the path with its query string stripped. -/
def doGET (env : Env) (path : String) (st : St) : Response × Effects × St :=
  addLatency (stripQuery path) (doGETcore env path st)

/-- A parsed POST request: the `Content-Length` value and the body —
`none` when it does not parse as JSON, otherwise the key/value pairs of
the parsed object. -/
structure PostReq where
  contentLength : Nat
  body : Option (List (String × String))
  deriving DecidableEq

/-- Body of the `try` block of `UserHandler.do_POST`. -/
def doPOSTcore (env : Env) (path : String) (req : PostReq) (st : St) :
    Response × Effects × St :=
  if path = "/users" then
    if req.contentLength = 0 then
      let r := sendError {} ("Empty request body") 400
      (r.1, r.2, st)
    else
      match req.body with
      | none =>
        let r := sendError {} ("Invalid JSON") 400
        (r.1, r.2, st)
      | some data =>
        if (data.lookup ("name")).isNone || (data.lookup ("email")).isNone then
          let r := sendError {} ("Name and email are required") 400
          (r.1, r.2, st)
        else
          let nm := (data.lookup ("name")).getD ("")
          let em := (data.lookup ("email")).getD ("")
          let g := getDbConnection env {} st.leased
          if g.1 = false then
            let r := sendError g.2.1 ("Database unavailable") 503
            (r.1, r.2, {st with leased := g.2.2})
          else if env.storeOk then
            if (st.db.rows.find? (fun u => u.email == em)).isSome then
              let r := sendError g.2.1 ("Email already exists") 409
              (r.1, r.2, {st with leased := releaseDbConnection env g.1 g.2.2})
            else
              let eff := {g.2.1 with insertAttempts := g.2.1.insertAttempts + 1}
              if env.insertOk then
                let newRow : UserRow := ⟨st.db.nextId, nm, em, some st.db.nextTs⟩
                let db' : Db := ⟨st.db.rows ++ [newRow], st.db.nextId + 1, st.db.nextTs + 1⟩
                let eff := reqInc eff ("POST") ("/users") ("201")
                let eff := {eff with usersGauge := eff.usersGauge ++ [.inc]}
                (⟨201, .created st.db.nextId nm em (isoformat st.db.nextTs)
                    ("User created successfully") env.now⟩, eff,
                  ⟨db', releaseDbConnection env g.1 g.2.2⟩)
              else
                let r := sendError eff ("Internal server error") 500
                (r.1, r.2, {st with leased := releaseDbConnection env g.1 g.2.2})
          else
            let r := sendError g.2.1 ("Internal server error") 500
            (r.1, r.2, {st with leased := releaseDbConnection env g.1 g.2.2})
  else
    let eff := reqInc {} ("POST") ("unknown") ("404")
    let r := sendError eff ("Not found") 404
    (r.1, r.2, st)

/-- `UserHandler.do_POST`: the `try` body followed by the `finally` latency
observation, keyed by the raw path (query string kept). -/
def doPOST (env : Env) (path : String) (req : PostReq) (st : St) :
    Response × Effects × St :=
  addLatency path (doPOSTcore env path req st)

/-- Outcome of the startup schema-bootstrap retry loop in `__main__`. -/
structure StartupTrace where
  attempts : Nat
  sleeps : List Nat
  warned : Bool
  started : Bool
  deriving DecidableEq

/-- The `for i in range(max_retries)` loop: attempt `init_database()`;
`break` on success; otherwise `time.sleep(5)` and retry; the `for`-`else`
logs the warning. `outcomes i` tells whether attempt `i` succeeds. -/
def retryLoop (outcomes : Nat → Bool) : Nat → Nat → List Nat → StartupTrace
  | 0, att, sl => ⟨att, sl, true, true⟩
  | k + 1, att, sl =>
    if outcomes att then ⟨att + 1, sl, false, true⟩
    else retryLoop outcomes k (att + 1) (sl ++ [5])

/-- The whole startup bootstrap: at most 5 attempts starting at attempt 0. -/
def retryInit (outcomes : Nat → Bool) : StartupTrace :=
  retryLoop outcomes 5 0 []

/-- A fully working environment (pool built, store reachable). -/
def env0 : Env := ⟨true, true, true, true, "T0"⟩

/-- The empty store with no leased connections. -/
def st0 : St := ⟨⟨[], 1, 0⟩, 0⟩

/-- A store already holding a user with email a@b.c. -/
def stDup : St := ⟨⟨[⟨1, "y", "a@b.c", some 0⟩], 2, 1⟩, 0⟩

/-- A store holding two users, one with a null created_at. -/
def stTwo : St := ⟨⟨[⟨1, "a", "a@x", some 0⟩, ⟨2, "b", "b@x", none⟩], 3, 1⟩, 0⟩

example : lastSegment ("/users/abc/7") = "7" := by decide
example : lastSegment ("/users/") = "" := by decide
example : stripQuery ("/users?x=1") = "/users" := by decide
example : pyIsDigit ("999999") = true := by decide
example : pyIsDigit ("") = false := by decide
example : pyInt ("907") = 907 := by decide
example : pyStartsWith ("/users/abc") ("/users/") = true := by decide
example : pyStartsWith ("/users") ("/users/") = false := by decide

/-- Frame facts about `do_GET`, for any path and environment: the leased
count is restored on every exit path, the `try` body records no latency
observation (only the `finally` clause does), and exactly one request-count
increment is recorded, whose status label is the fixed string 200 on every
recognized endpoint (regardless of the actual response status) and 404 on
unknown paths. -/
theorem doGETcore_frame (env : Env) (path : String) (st : St) :
    (doGETcore env path st).2.2.leased = st.leased ∧
    (doGETcore env path st).2.1.latency = [] ∧
    (doGETcore env path st).2.1.reqCount =
      (if path = "/health" then [("GET", "/health", "200")]
        else if path = "/users" then [("GET", "/users", "200")]
        else if pyStartsWith path ("/users/") = true then [("GET", "/users/{id}", "200")]
        else [("GET", "unknown", "404")]) := by
  obtain ⟨pe, gc, so, io, nw⟩ := env
  by_cases h1 : path = "/health"
  case pos => simp [doGETcore, reqInc, h1]
  case neg =>
    by_cases h2 : path = "/users"
    case pos =>
      cases pe <;> cases gc <;>
        first
        | (simp [doGETcore, getDbConnection, sendError, errInc, reqInc, h1, h2]
           done)
        | (cases so <;>
            simp [doGETcore, getDbConnection, releaseDbConnection, sendError, errInc, reqInc,
              h1, h2])
    case neg =>
      by_cases h3 : pyStartsWith path ("/users/") = true
      case pos =>
        by_cases hd : pyIsDigit (lastSegment path) = false
        case pos => simp [doGETcore, sendError, errInc, reqInc, h1, h2, h3, hd]
        case neg =>
          cases pe <;> cases gc <;>
            first
            | (simp [doGETcore, getDbConnection, sendError, errInc, reqInc, h1, h2, h3, hd]
               done)
            | (cases so
               case false =>
                 simp [doGETcore, getDbConnection, releaseDbConnection, sendError, errInc,
                   reqInc, h1, h2, h3, hd]
               case true =>
                 cases hf : st.db.rows.find? (fun u => u.id == pyInt (lastSegment path)) <;>
                   simp [doGETcore, getDbConnection, releaseDbConnection, sendError, errInc,
                     reqInc, h1, h2, h3, hd, hf])
      case neg => simp [doGETcore, sendError, errInc, reqInc, h1, h2, h3]

/-- Frame facts about `do_POST`: the leased count is restored on every exit
path, the `try` body records no latency observation, and a request-count
increment is recorded exactly when the path is unknown (labeled 404) or the
creation succeeded (labeled 201); rejected `POST /users` requests record no
request-count increment at all. -/
theorem doPOSTcore_frame (env : Env) (path : String) (req : PostReq) (st : St) :
    (doPOSTcore env path req st).2.2.leased = st.leased ∧
    (doPOSTcore env path req st).2.1.latency = [] ∧
    (doPOSTcore env path req st).2.1.reqCount =
      (if path = "/users" then
        (if (doPOSTcore env path req st).1.status = 201 then [("POST", "/users", "201")] else [])
      else [("POST", "unknown", "404")]) := by
  obtain ⟨pe, gc, so, io, nw⟩ := env
  obtain ⟨cl, rbody⟩ := req
  by_cases hpath : path = "/users"
  case neg => simp [doPOSTcore, sendError, errInc, reqInc, hpath]
  case pos =>
    by_cases hcl : cl = 0
    case pos => simp [doPOSTcore, sendError, errInc, reqInc, hpath, hcl]
    case neg =>
      cases rbody with
      | none => simp [doPOSTcore, sendError, errInc, reqInc, hpath, hcl]
      | some data =>
        by_cases hk : ((data.lookup ("name")).isNone || (data.lookup ("email")).isNone) = true
        case pos => simp [doPOSTcore, sendError, errInc, reqInc, hpath, hcl, hk]
        case neg =>
          cases pe <;> cases gc <;>
            first
            | (simp [doPOSTcore, getDbConnection, sendError, errInc, reqInc, hpath, hcl, hk]
               done)
            | (cases so
               case false =>
                 simp [doPOSTcore, getDbConnection, releaseDbConnection, sendError, errInc,
                   reqInc, hpath, hcl, hk]
               case true =>
                 by_cases hdup :
                     ∃ x ∈ st.db.rows, x.email = (data.lookup ("email")).getD ("")
                 case pos =>
                   simp [doPOSTcore, getDbConnection, releaseDbConnection, sendError, errInc,
                     reqInc, hpath, hcl, hk, hdup]
                 case neg =>
                   cases io <;>
                     simp [doPOSTcore, getDbConnection, releaseDbConnection, sendError, errInc,
                       reqInc, hpath, hcl, hk, hdup])

/-- C1 counterexample: a GET /users/999999 that responds 404 records its
request-count increment labeled with status 200, not 404; and a POST /users
that responds 400 records no request-count increment at all. -/
theorem C1_request_count_counterexample :
    (doGET env0 ("/users/999999") st0).1.status = 404 ∧
    (doGET env0 ("/users/999999") st0).2.1.reqCount = [("GET", "/users/{id}", "200")] ∧
    (doPOST env0 ("/users") ⟨0, none⟩ st0).1.status = 400 ∧
    (doPOST env0 ("/users") ⟨0, none⟩ st0).2.1.reqCount = [] := by decide

/-- C1 amended: every handled GET request records exactly one request-count
increment, keyed by (method, endpoint-template, fixed status label): 200 on
the recognized endpoints regardless of the status actually sent, and 404 on
unknown paths. A POST /users request records an increment (labeled 201)
exactly when creation succeeds; every rejected POST /users records no
request-count increment; unknown-path POSTs record one labeled 404. -/
theorem C1_amended_request_count (env : Env) (path : String) (req : PostReq) (st : St) :
    (doGET env path st).2.1.reqCount =
      (if path = "/health" then [("GET", "/health", "200")]
        else if path = "/users" then [("GET", "/users", "200")]
        else if pyStartsWith path ("/users/") = true then [("GET", "/users/{id}", "200")]
        else [("GET", "unknown", "404")]) ∧
    (doPOST env path req st).2.1.reqCount =
      (if path = "/users" then
        (if (doPOST env path req st).1.status = 201 then [("POST", "/users", "201")] else [])
      else [("POST", "unknown", "404")]) :=
  ⟨(doGETcore_frame env path st).2.2, (doPOSTcore_frame env path req st).2.2⟩

/-- C6: every request operation leaves the pool's leased count exactly as it
found it — the connection acquired by an operation is released on every exit
path (success, rejection and store failure alike). -/
theorem C6_connection_released (env : Env) (path : String) (req : PostReq) (st : St) :
    (doGET env path st).2.2.leased = st.leased ∧
    (doPOST env path req st).2.2.leased = st.leased :=
  ⟨(doGETcore_frame env path st).1, (doPOSTcore_frame env path req st).1⟩

/-- C8: every handled request records exactly one latency observation, keyed
by the query-stripped path for GET and by the raw path for POST. -/
theorem C8_latency_key (env : Env) (path : String) (req : PostReq) (st : St) :
    (doGET env path st).2.1.latency = [stripQuery path] ∧
    (doPOST env path req st).2.1.latency = [path] := by
  constructor
  · show (doGETcore env path st).2.1.latency ++ [stripQuery path] = [stripQuery path]
    rw [(doGETcore_frame env path st).2.1]
    rfl
  · show (doPOSTcore env path req st).2.1.latency ++ [path] = [path]
    rw [(doPOSTcore_frame env path req st).2.1]
    rfl

/-- C7: the startup bootstrap loop makes at most 5 attempts, every delay it
sleeps is exactly 5 seconds, every attempt before the last one failed, it
stops at the first success, it warns exactly when all five attempts fail,
and the service starts in every case. -/
theorem C7_bootstrap_retry (outcomes : Nat → Bool) :
    (retryInit outcomes).attempts ≤ 5 ∧
    (retryInit outcomes).started = true ∧
    (retryInit outcomes).sleeps.all (fun d => d == 5) = true ∧
    ((retryInit outcomes).warned = true ↔
      (outcomes 0 = false ∧ outcomes 1 = false ∧ outcomes 2 = false ∧
        outcomes 3 = false ∧ outcomes 4 = false)) ∧
    (1 < (retryInit outcomes).attempts → outcomes 0 = false) ∧
    (2 < (retryInit outcomes).attempts → outcomes 1 = false) ∧
    (3 < (retryInit outcomes).attempts → outcomes 2 = false) ∧
    (4 < (retryInit outcomes).attempts → outcomes 3 = false) ∧
    ((retryInit outcomes).warned = false →
      outcomes ((retryInit outcomes).attempts - 1) = true) := by
  cases h0 : outcomes 0 <;> cases h1 : outcomes 1 <;> cases h2 : outcomes 2 <;>
    cases h3 : outcomes 3 <;> cases h4 : outcomes 4 <;>
    simp [retryInit, retryLoop, h0, h1, h2, h3, h4]

/-- C9: GET /health always responds 200 with the database field determined
solely by whether the pool object was constructed (connected/disconnected);
two runs agreeing on the pool-construction outcome and the clock produce the
same response, whatever the store reachability. -/
theorem C9_health_shallow (e1 e2 : Env) (st1 st2 : St)
    (hp : e1.poolExists = e2.poolExists) (hn : e1.now = e2.now) :
    (doGET e1 ("/health") st1).1 =
      ⟨200, .health ("healthy") ("user-service") e1.now
        (if e1.poolExists then ("connected") else ("disconnected")) ("1.0.0")⟩ ∧
    (doGET e1 ("/health") st1).1 = (doGET e2 ("/health") st2).1 := by
  constructor
  · simp [doGET, doGETcore, addLatency]
  · simp [doGET, doGETcore, addLatency, hp, hn]

/-- C9 witness: a run with a reachable store and one with the store down
(pool constructed in both) give the same 200 connected health response. -/
theorem C9_health_shallow_witness :
    (doGET env0 ("/health") st0).1 =
      ⟨200, .health ("healthy") ("user-service") ("T0") ("connected") ("1.0.0")⟩ ∧
    (doGET env0 ("/health") st0).1 =
      (doGET ⟨true, false, false, false, "T0"⟩ ("/health") st0).1 := by
  have h := C9_health_shallow env0 ⟨true, false, false, false, "T0"⟩ st0 st0 (by decide)
    (by decide)
  refine ⟨?_, h.2⟩
  rw [h.1]
  decide

/-- C10: the id is parsed as the final slash-separated segment of the path:
GET /users/abc/7 looks up id 7, and GET /users/ (empty last segment) is
rejected with 400 Invalid user ID rather than 404. -/
theorem C10_last_segment_routing :
    (doGET env0 ("/users/abc/7") ⟨⟨[⟨7, "Bob", "bob@e.com", some 3⟩], 8, 4⟩, 0⟩).1 =
      ⟨200, .userObj ⟨7, "Bob", "bob@e.com", some (isoformat 3)⟩⟩ ∧
    (doGET env0 ("/users/") st0).1 = ⟨400, .error ("Invalid user ID")⟩ := by decide

/-- C2: creating a user whose email already occurs in the table responds 409
Email already exists, leaves the stored rows unchanged, and issues no INSERT
(the duplicate check is the SELECT pre-check). -/
theorem C2_duplicate_email_409 (env : Env) (st : St) (cl : Nat)
    (data : List (String × String)) (nm em : String)
    (hcl : cl ≠ 0)
    (hn : data.lookup ("name") = some nm)
    (he : data.lookup ("email") = some em)
    (hdup : ∃ u ∈ st.db.rows, u.email = em)
    (hpe : env.poolExists = true) (hgc : env.getconnOk = true)
    (hso : env.storeOk = true) :
    (doPOST env ("/users") ⟨cl, some data⟩ st).1 = ⟨409, .error ("Email already exists")⟩ ∧
    (doPOST env ("/users") ⟨cl, some data⟩ st).2.2.db = st.db ∧
    (doPOST env ("/users") ⟨cl, some data⟩ st).2.1.insertAttempts = 0 := by
  simp [doPOST, addLatency, doPOSTcore, getDbConnection, releaseDbConnection, sendError,
    errInc, reqInc, hcl, hn, he, hdup, hpe, hgc, hso]

/-- C2 witness: posting the already-present email a@b.c yields 409 and
leaves the single-row table and the zero INSERT count intact. -/
theorem C2_duplicate_email_409_witness :
    (doPOST env0 ("/users") ⟨5, some [("name", "x"), ("email", "a@b.c")]⟩ stDup).1 =
      ⟨409, .error ("Email already exists")⟩ ∧
    (doPOST env0 ("/users") ⟨5, some [("name", "x"), ("email", "a@b.c")]⟩ stDup).2.2.db =
      stDup.db ∧
    (doPOST env0 ("/users") ⟨5, some [("name", "x"), ("email", "a@b.c")]⟩
      stDup).2.1.insertAttempts = 0 :=
  C2_duplicate_email_409 env0 stDup 5 [("name", "x"), ("email", "a@b.c")] "x" ("a@b.c")
    (by decide) (by decide) (by decide) (by decide) (by decide) (by decide) (by decide)

/-- C3: on a GET path under /users/, a non-digit id segment yields 400
Invalid user ID; a digit segment is looked up by exact id and yields 200
with the row when found, 404 User not found when absent, 500 on store
failure and 503 when no connection is obtainable. -/
theorem C3_get_user_by_id (env : Env) (st : St) (path : String)
    (hp : pyStartsWith path ("/users/") = true) :
    (pyIsDigit (lastSegment path) = false →
      (doGET env path st).1 = ⟨400, .error ("Invalid user ID")⟩) ∧
    (pyIsDigit (lastSegment path) = true → env.poolExists = true →
      env.getconnOk = true → env.storeOk = true →
      ∀ u, st.db.rows.find? (fun v => v.id == pyInt (lastSegment path)) = some u →
        (doGET env path st).1 = ⟨200, .userObj (userOut u)⟩) ∧
    (pyIsDigit (lastSegment path) = true → env.poolExists = true →
      env.getconnOk = true → env.storeOk = true →
      st.db.rows.find? (fun v => v.id == pyInt (lastSegment path)) = none →
        (doGET env path st).1 = ⟨404, .error ("User not found")⟩) ∧
    (pyIsDigit (lastSegment path) = true → env.poolExists = true →
      env.getconnOk = true → env.storeOk = false →
        (doGET env path st).1 = ⟨500, .error ("Internal server error")⟩) ∧
    (pyIsDigit (lastSegment path) = true → (env.poolExists && env.getconnOk) = false →
        (doGET env path st).1 = ⟨503, .error ("Database unavailable")⟩) := by
  have h1 : ¬path = "/health" := by
    rintro rfl
    exact absurd hp (by decide)
  have h2 : ¬path = "/users" := by
    rintro rfl
    exact absurd hp (by decide)
  refine ⟨?_, ?_, ?_, ?_, ?_⟩
  · intro hd
    simp [doGET, addLatency, doGETcore, sendError, errInc, reqInc, h1, h2, hp, hd]
  · intro hd hpe hgc hso u hf
    simp [doGET, addLatency, doGETcore, getDbConnection, releaseDbConnection, sendError,
      errInc, reqInc, h1, h2, hp, hd, hpe, hgc, hso, hf]
  · intro hd hpe hgc hso hf
    simp [doGET, addLatency, doGETcore, getDbConnection, releaseDbConnection, sendError,
      errInc, reqInc, h1, h2, hp, hd, hpe, hgc, hso, hf]
  · intro hd hpe hgc hso
    simp [doGET, addLatency, doGETcore, getDbConnection, releaseDbConnection, sendError,
      errInc, reqInc, h1, h2, hp, hd, hpe, hgc, hso]
  · intro hd hc
    obtain ⟨pe, gc, so, io, nw⟩ := env
    cases pe <;> cases gc <;>
      simp_all [doGET, addLatency, doGETcore, getDbConnection, sendError, errInc, reqInc,
        h1, h2, hp, hd]

/-- C3 witness: GET /users/abc is rejected 400 and GET /users/999999 on an
empty table is 404. -/
theorem C3_get_user_by_id_witness :
    (doGET env0 ("/users/abc") st0).1 = ⟨400, .error ("Invalid user ID")⟩ ∧
    (doGET env0 ("/users/999999") st0).1 = ⟨404, .error ("User not found")⟩ := by
  have h := C3_get_user_by_id env0 st0 ("/users/abc") (by decide)
  have h' := C3_get_user_by_id env0 st0 ("/users/999999") (by decide)
  exact ⟨h.1 (by decide),
    h'.2.2.1 (by decide) (by decide) (by decide) (by decide) (by decide)⟩

/-- C4: POST /users validation order: Content-Length 0 is rejected first as
Empty request body (whatever the body), then unparsable JSON as Invalid
JSON, then a missing name or email key as Name and email are required; when
both keys are present, whatever their values (empty strings included),
validation does not reject with 400. -/
theorem C4_post_validation_order (env : Env) (st : St) :
    (∀ b, (doPOST env ("/users") ⟨0, b⟩ st).1 = ⟨400, .error ("Empty request body")⟩) ∧
    (∀ cl, cl ≠ 0 →
      (doPOST env ("/users") ⟨cl, none⟩ st).1 = ⟨400, .error ("Invalid JSON")⟩) ∧
    (∀ cl data, cl ≠ 0 →
      ((data.lookup ("name")).isNone || (data.lookup ("email")).isNone) = true →
      (doPOST env ("/users") ⟨cl, some data⟩ st).1 =
        ⟨400, .error ("Name and email are required")⟩) ∧
    (∀ cl data nm em, cl ≠ 0 → data.lookup ("name") = some nm →
      data.lookup ("email") = some em →
      (doPOST env ("/users") ⟨cl, some data⟩ st).1.status ≠ 400) := by
  refine ⟨?_, ?_, ?_, ?_⟩
  · intro b
    simp [doPOST, addLatency, doPOSTcore, sendError, errInc]
  · intro cl hcl
    simp [doPOST, addLatency, doPOSTcore, sendError, errInc, hcl]
  · intro cl data hcl hk
    simp [doPOST, addLatency, doPOSTcore, sendError, errInc, hcl, hk]
  · intro cl data nm em hcl hn he
    obtain ⟨pe, gc, so, io, nw⟩ := env
    cases pe <;> cases gc <;>
      first
      | (simp [doPOST, addLatency, doPOSTcore, getDbConnection, sendError, errInc, reqInc,
           hcl, hn, he]
         done)
      | (cases so
         case false =>
           simp [doPOST, addLatency, doPOSTcore, getDbConnection, releaseDbConnection,
             sendError, errInc, reqInc, hcl, hn, he]
         case true =>
           by_cases hdup : ∃ x ∈ st.db.rows, x.email = em
           case pos =>
             simp [doPOST, addLatency, doPOSTcore, getDbConnection, releaseDbConnection,
               sendError, errInc, reqInc, hcl, hn, he, hdup]
           case neg =>
             cases io <;>
               simp [doPOST, addLatency, doPOSTcore, getDbConnection, releaseDbConnection,
                 sendError, errInc, reqInc, hcl, hn, he, hdup])

/-- C4 witness: Content-Length 0 gives Empty request body, body with both
keys absent gives Name and email are required, and empty-string name and
email values pass validation (no 400). -/
theorem C4_post_validation_order_witness :
    (doPOST env0 ("/users") ⟨0, none⟩ st0).1 = ⟨400, .error ("Empty request body")⟩ ∧
    (doPOST env0 ("/users") ⟨7, some []⟩ st0).1 =
      ⟨400, .error ("Name and email are required")⟩ ∧
    (doPOST env0 ("/users") ⟨7, some [("name", ""), ("email", "")]⟩ st0).1.status ≠ 400 := by
  have h := C4_post_validation_order env0 st0
  exact ⟨h.1 none, h.2.2.1 7 [] (by decide) (by decide),
    h.2.2.2 7 [("name", ""), ("email", "")] "" "" (by decide) (by decide) (by decide)⟩

/-- C5: listing users with a working store responds 200 with the first 100
rows mapped to JSON, a count equal to the length of that list (hence never
more than 100), created_at serialized through isoformat or null when
absent, and the users gauge set to exactly that count. -/
theorem C5_list_users (env : Env) (st : St)
    (hpe : env.poolExists = true) (hgc : env.getconnOk = true)
    (hso : env.storeOk = true) :
    (doGET env ("/users") st).1 =
      ⟨200, .userList ((st.db.rows.take 100).map userOut)
        ((st.db.rows.take 100).map userOut).length env.now⟩ ∧
    ((st.db.rows.take 100).map userOut).length ≤ 100 ∧
    (∀ u, (userOut u).created_at = u.created_at.map isoformat) ∧
    (doGET env ("/users") st).2.1.usersGauge =
      [.set ((st.db.rows.take 100).map userOut).length] := by
  refine ⟨?_, ?_, fun u => rfl, ?_⟩
  · simp [doGET, addLatency, doGETcore, getDbConnection, releaseDbConnection, reqInc,
      hpe, hgc, hso]
  · simp only [List.length_map, List.length_take]
    exact min_le_left _ _
  · simp [doGET, addLatency, doGETcore, getDbConnection, releaseDbConnection, reqInc,
      hpe, hgc, hso]

/-- C5 witness at a two-row store (one null created_at). -/
theorem C5_list_users_witness :
    (doGET env0 ("/users") stTwo).1 =
      ⟨200, .userList ((stTwo.db.rows.take 100).map userOut)
        ((stTwo.db.rows.take 100).map userOut).length env0.now⟩ ∧
    ((stTwo.db.rows.take 100).map userOut).length ≤ 100 ∧
    (∀ u, (userOut u).created_at = u.created_at.map isoformat) ∧
    (doGET env0 ("/users") stTwo).2.1.usersGauge =
      [.set ((stTwo.db.rows.take 100).map userOut).length] :=
  C5_list_users env0 stTwo (by decide) (by decide) (by decide)

/-- C7 witness: with attempts 0 and 1 failing and attempt 2 succeeding, the
loop stays within bounds, starts the service, skipped no failure and
stopped on the success. -/
theorem C7_bootstrap_retry_witness :
    (retryInit (fun i => i == 2)).attempts ≤ 5 ∧
    (retryInit (fun i => i == 2)).started = true ∧
    ((0 : Nat) == 2) = false ∧
    ((retryInit (fun i => i == 2)).attempts - 1 == 2) = true := by
  have h := C7_bootstrap_retry (fun i => i == 2)
  exact ⟨h.1, h.2.1, h.2.2.2.2.1 (by decide), h.2.2.2.2.2.2.2.2 (by decide)⟩
